import Mathlib

/-!
Verification of `src/database.py` (PyPore).

The module is Python 2 code: it imports `gdata.spreadsheet.service` and `MySQLdb`
(Python-2-only libraries), references the PyQt4 `Qc.QString` type, and its factory
relies on the Python 2 builtin name `file`.  The embedding below therefore uses
Python 2 semantics where the two versions differ; the one place this matters is
that a Python 2 `str` has no `__iter__` attribute.

Python values are modelled at the shapes this module traffics in: scalar fields
(strings, ints, bools, None), entries (a scalar or a tuple of scalars, i.e. a Row),
and the `data` argument of `TextInterface.write` (a scalar or a sequence of
entries).  Machine I/O (the open file, the SQL cursor) is made explicit: file
contents are passed in and returned as strings, and the SQL connection is a record
of executed statements, committed statements and a commit counter, with the
driver's possible failures supplied as an oracle on statement strings.
-/

/-- A scalar Python field value as used by the module's rows. -/
inductive PyScalar where
  | str (s : String)
  | int (n : Int)
  | bool (b : Bool)
  | pyNone
deriving DecidableEq

/-- The Python exceptions the modelled code can raise. -/
inductive PyErr where
  | assertionError
  | typeError
  | indexError
  | nameError (n : String)
deriving DecidableEq

/-- An element of the `data` argument of `TextInterface.write`: either a scalar or
a tuple/list of scalars (a Row). -/
inductive PyEntry where
  | scalar (v : PyScalar)
  | tup (xs : List PyScalar)
deriving DecidableEq

/-- The `data` argument of `TextInterface.write`: a scalar, or a sequence of
entries (the intended list of Rows). -/
inductive PyData where
  | scalar (v : PyScalar)
  | seq (xs : List PyEntry)
deriving DecidableEq

/-- Python `str(x)` for an int: decimal digits, with a leading minus sign for
negative values. -/
def pyStrInt (n : Int) : String :=
  match n with
  | Int.ofNat m => ⟨Nat.toDigits 10 m⟩
  | Int.negSucc m => "-" ++ ⟨Nat.toDigits 10 (m + 1)⟩

/-- Python `str(x)` on scalar values. -/
def pyStrScalar : PyScalar → String
  | .str s => s
  | .int n => pyStrInt n
  | .bool b => if b then "True" else "False"
  | .pyNone => "None"

/-- Python `sep.join(xs)`. -/
def pyJoin (sep : String) : List String → String
  | [] => ""
  | [x] => x
  | x :: xs => x ++ sep ++ pyJoin sep xs

/-- Python `s.lower()` (ASCII case folding, which covers the factory's tags). -/
def pyLower (s : String) : String := ⟨s.data.map Char.toLower⟩

/-- Python `s.endswith(suffix)`. -/
def pyEndsWith (s suffixStr : String) : Bool :=
  suffixStr.data.isSuffixOf s.data

/-- Iterating a Python text-mode file handle yields the chunks ending at each
newline, keeping the newline character, plus a final chunk with no newline when
the contents do not end in one.  Accumulator holds the current chunk reversed. -/
def pyLinesAux : List Char → List Char → List (List Char)
  | acc, [] => if acc.isEmpty then [] else [acc.reverse]
  | acc, c :: cs =>
    if c = '\n' then (acc.reverse ++ ['\n']) :: pyLinesAux [] cs
    else pyLinesAux (c :: acc) cs

/-- The lines produced by `for line in infile` on a file with the given contents. -/
def pyLines (s : String) : List String :=
  (pyLinesAux [] s.data).map (fun l => ⟨l⟩)

/-- The character set of the source's `line.strip("\r\n\t")`. -/
def isStripChar (c : Char) : Bool :=
  c = '\r' || c = '\n' || c = '\t'

/-- Python `line.strip("\r\n\t")`: removes characters of the set from both ends
of the string (leading and trailing). -/
def pyStrip (s : String) : String :=
  ⟨((s.data.dropWhile isStripChar).reverse.dropWhile isStripChar).reverse⟩

/-- Does the list start with the given needle? -/
def startsWithSeq : List Char → List Char → Bool
  | [], _ => true
  | _ :: _, [] => false
  | n :: ns, c :: cs => (n == c) && startsWithSeq ns cs

/-- Python `s.split(sep)` for a nonempty `sep`, on character lists; splits at each
leftmost occurrence of the needle.  The fuel is one more than the list length,
which each step decreases by at least one, so it is never exhausted. -/
def pySplitFuel (sep : List Char) : Nat → List Char → List (List Char)
  | 0, l => [l]
  | _ + 1, [] => [[]]
  | f + 1, c :: cs =>
    if startsWithSeq sep (c :: cs) then
      [] :: pySplitFuel sep f ((c :: cs).drop sep.length)
    else
      match pySplitFuel sep f cs with
      | [] => [[c]]
      | g :: gs => (c :: g) :: gs

/-- Python `s.split(sep)`.  The adapter only ever supplies nonempty separators
(the default is a single space, the overrides are "," and a tab); Python raises
ValueError on an empty separator, a case no caller of this model exercises. -/
def pySplit (s sep : String) : List String :=
  if sep.data = [] then [s]
  else (pySplitFuel sep.data (s.data.length + 1) s.data).map (fun l => ⟨l⟩)

/-- The separator override performed identically at the top of
`TextInterface.read` (lines 72-75) and `TextInterface.write` (lines 85-88): a
`.csv` filename forces ",", a `.tsv` filename forces a tab, otherwise the
supplied argument is kept. -/
def effectiveSeperator (file seperator : String) : String :=
  if pyEndsWith file ".csv" then ","
  else if pyEndsWith file ".tsv" then "\t"
  else seperator

/-- `TextInterface.read` (lines 66-76) on a file with the given contents:
override the separator from the filename suffix, then for each line of the file
strip "\r\n\t" from it and split it on the separator into a Row. -/
def TextInterface.read (file contents seperator : String) : List (List String) :=
  let sep := effectiveSeperator file seperator
  (pyLines contents).map (fun line => pySplit (pyStrip line) sep)

/-- `hasattr(data, "__iter__")` in Python 2: lists and tuples have `__iter__`;
strings, numbers, booleans and None do not (Python 2 strings iterate through
`__getitem__` and carry no `__iter__` attribute). -/
def hasIter : PyData → Bool
  | .seq _ => true
  | .scalar _ => false

/-- Python `data[0]`. -/
def pyDataIndex0 : PyData → Except PyErr PyEntry
  | .seq [] => .error .indexError
  | .seq (x :: _) => .ok x
  | .scalar (.str s) =>
    match s.data with
    | [] => .error .indexError
    | c :: _ => .ok (.scalar (.str ⟨[c]⟩))
  | .scalar _ => .error .typeError

/-- Python `data[0] == str`: equality of a runtime data value with the builtin
class `str`.  No value this module handles is a class object, so the comparison
is `False` for every first element. -/
def pyEqClassStr (_first : PyEntry) : Bool := false

/-- Python truthiness of `type(b)` for a bool `b`: `type` returns the class
`bool`, and every class object is truthy. -/
def truthyOfTypeBool (_b : Bool) : Bool := true

/-- The source's branch guard `if type(data[0] == str):` (line 89).  It tests the
truthiness of `type(data[0] == str)`, which is the class `bool` whatever
`data[0]` is, so the guard holds for every input. -/
def writeGuard (first : PyEntry) : Bool :=
  truthyOfTypeBool (pyEqClassStr first)

/-- Python `outfile.write(data)` (line 90): the file method requires a string
argument and raises TypeError otherwise. -/
def fileWriteArg : PyData → Except PyErr String
  | .scalar (.str s) => .ok s
  | _ => .error .typeError

/-- `seperator.join(str(i) for i in entry)` (line 92): join the `str` of each
item of an entry; iterating a string yields its one-character strings, and a
non-iterable scalar entry raises TypeError. -/
def joinEntry (sep : String) : PyEntry → Except PyErr String
  | .tup xs => .ok (pyJoin sep (xs.map pyStrScalar))
  | .scalar (.str s) => .ok (pyJoin sep (s.data.map (fun c => String.singleton c)))
  | .scalar _ => .error .typeError

/-- `"\n".join(seperator.join(str(i) for i in entry) for entry in data)`
(line 92); iterating a string `data` yields its characters, each a one-element
entry, and a non-iterable `data` raises TypeError. -/
def joinData (sep : String) : PyData → Except PyErr String
  | .seq entries => (entries.mapM (joinEntry sep)).map (pyJoin "\n")
  | .scalar (.str s) => .ok (pyJoin "\n" (s.data.map (fun c => String.singleton c)))
  | .scalar _ => .error .typeError

/-- The outcome of a `TextInterface.write` call: the contents left in the target
file (`Option.none` when the call failed before `open(file, 'w')` truncated it),
and the exception raised, if any. -/
structure WriteResult where
  fileContents : Option String
  error : Option PyErr
deriving DecidableEq

/-- `TextInterface.write` (lines 78-92): assert `hasattr(data, "__iter__")`
before opening; open for writing (which truncates the file); override the
separator from the filename suffix; then, because the guard of line 89 is always
true, pass `data` itself to `outfile.write`, which succeeds only for a string
argument.  The joining branch of line 92 is unreachable. -/
def TextInterface.write (file : String) (data : PyData) (seperator : String) : WriteResult :=
  if hasIter data then
    let sep := effectiveSeperator file seperator
    match pyDataIndex0 data with
    | .error e => ⟨some "", some e⟩
    | .ok first =>
      if writeGuard first then
        match fileWriteArg data with
        | .ok s => ⟨some s, Option.none⟩
        | .error e => ⟨some "", some e⟩
      else
        match joinData sep data with
        | .ok s => ⟨some s, Option.none⟩
        | .error e => ⟨some "", some e⟩
  else ⟨Option.none, some PyErr.assertionError⟩

/-- Python sequence types among the modelled values: strings, and lists/tuples. -/
def isPySequence : PyData → Bool
  | .scalar (.str _) => true
  | .seq _ => true
  | .scalar _ => false

/-- Python `s.replace(needle, repl)` for a one-character needle: every occurrence
of the character is substituted independently. -/
def pyReplaceChar (needle : Char) (repl : List Char) (s : List Char) : List Char :=
  (s.map (fun c => if c = needle then repl else [c])).flatten

/-- The literal escaping of `_build_insert` (line 130):
`str(item).replace('"', '""').replace("\\", "\\\\")` — first each double quote is
doubled, then each backslash is doubled. -/
def escapeField (s : String) : String :=
  ⟨pyReplaceChar '\\' ['\\', '\\'] (pyReplaceChar '"' ['"', '"'] s.data)⟩

/-- `isinstance(item, str)` on a scalar. -/
def isinstanceStr : PyScalar → Bool
  | .str _ => true
  | _ => false

/-- Python `not item` on a scalar: true exactly on the falsy values — the empty
string, the number 0, False, and None. -/
def pyNotItem : PyScalar → Bool
  | .str s => s.isEmpty
  | .int n => n == 0
  | .bool b => !b
  | .pyNone => true

/-- One item of `_build_insert`'s list comprehension (lines 130-133):
`'"{}"'.format(str(item).replace('"','""').replace("\\","\\\\"))` when
`isinstance(item, str) or not item`, else `'{}'.format(item)`. -/
def buildInsertItem (item : PyScalar) : String :=
  if isinstanceStr item || pyNotItem item then
    "\"" ++ escapeField (pyStrScalar item) ++ "\""
  else
    pyStrScalar item

/-- `MySQLDatabaseInterface._build_insert` (lines 129-133): the items of the row
rendered as SQL value literals and joined with ",". -/
def build_insert (row : List PyScalar) : String :=
  pyJoin "," (row.map buildInsertItem)

/-- The statement string built for one row by `insert` (line 124):
`'INSERT INTO {table} VALUES ( {vals} )'` with `vals = _build_insert(row)`. -/
def insertStatement (table : String) (row : List PyScalar) : String :=
  "INSERT INTO " ++ table ++ " VALUES ( " ++ build_insert row ++ " )"

/-- The observable state of the adapter's MySQL connection: the statements the
cursor has successfully executed, the statements whose effects have been
committed, and how many commits were issued. -/
structure Conn where
  executed : List String
  committed : List String
  commits : Nat
deriving DecidableEq

/-- `self.db.commit()`: the effects of every executed statement become
committed. -/
def Conn.commitNow (c : Conn) : Conn :=
  { c with committed := c.executed, commits := c.commits + 1 }

/-- The `DatabaseError` values raised by the relational adapter, carrying the
context its two format strings embed: the offending statement (lines 111, 119)
or the offending row and table (line 127). -/
inductive DBErr where
  | statementError (statement : String)
  | rowError (row : List PyScalar) (table : String)
deriving DecidableEq

/-- `MySQLDatabaseInterface.execute` (lines 103-112): run the statement on the
cursor — the driver's possible failure is the oracle `fails` — raising
`DatabaseError` wrapping the statement on failure; on success, commit.  The
commit sits after the try block, so no commit happens on failure. -/
def MySQL.execute (fails : String → Bool) (c : Conn) (statement : String) :
    Conn × Option DBErr :=
  if fails statement then (c, some (DBErr.statementError statement))
  else (Conn.commitNow { c with executed := c.executed ++ [statement] }, Option.none)

/-- `MySQLDatabaseInterface.read` (lines 114-119): execute the statement and
return `fetchall()` (the oracle `results`); on driver failure raise
`DatabaseError` wrapping the statement.  No commit is issued on either path. -/
def MySQL.read (fails : String → Bool) (results : String → List (List PyScalar))
    (c : Conn) (statement : String) : Conn × Except DBErr (List (List PyScalar)) :=
  if fails statement then (c, .error (DBErr.statementError statement))
  else ({ c with executed := c.executed ++ [statement] }, .ok (results statement))

/-- The row loop of `insert` (lines 123-124): execute the INSERT statement for
each row in order, stopping at the first row whose execute raises and reporting
that row. -/
def MySQL.insertLoop (fails : String → Bool) (table : String) :
    Conn → List (List PyScalar) → Conn × Option (List PyScalar)
  | c, [] => (c, Option.none)
  | c, row :: rest =>
    if fails (insertStatement table row) then (c, some row)
    else MySQL.insertLoop fails table
      { c with executed := c.executed ++ [insertStatement table row] } rest

/-- `MySQLDatabaseInterface.insert` (lines 121-127): run the row loop; when every
row's execute succeeds, issue the single commit that sits after the loop; when a
row's execute raises, raise `DatabaseError` naming that row and the table — the
commit line is never reached on that path. -/
def MySQL.insert (fails : String → Bool) (c : Conn) (table : String)
    (rows : List (List PyScalar)) : Conn × Option DBErr :=
  match MySQL.insertLoop fails table c rows with
  | (c2, Option.none) => (Conn.commitNow c2, Option.none)
  | (c2, some row) => (c2, some (DBErr.rowError row table))

/-- Module-level constant `SQL_TYPES` (line 15).  Note the factory never consults
it: its relational branch compares against the literal 'mysql'. -/
def SQL_TYPES : List String := ["mysql", "postgresql", "sqlite"]

/-- Module-level constant `TEXT_TABLE_TYPES` (line 16). -/
def TEXT_TABLE_TYPES : List String := ["excel", "text", "csv"]

/-- Module-level constant `GOOGLE_SPREADSHEET_TYPES` (line 17). -/
def GOOGLE_SPREADSHEET_TYPES : List String := ["google"]

/-- A value the factory can pass as the `file` argument of `TextInterface`. -/
inductive FactoryValue where
  | strVal (s : String)
  | builtinFileClass
deriving DecidableEq

/-- What a `DatabaseFactory` call produces. -/
inductive FactoryOutcome where
  | textAdapter (file : FactoryValue)
  | raisedNameError (n : String)
  | noneReturned
deriving DecidableEq

/-- Resolution of the bare name `file` in `return TextInterface( file = file )`
(line 173).  The body of `DatabaseFactory(db_type, **kwargs)` binds only
`db_type` and the dict `kwargs` — a `**kwargs` dict does not bind its keys as
names — and the module defines no global `file`; in Python 2 the name therefore
resolves to the builtin class `file`.  The kwargs dict is never consulted. -/
def factoryFileArgument (_kwargs : List (String × String)) : FactoryValue :=
  FactoryValue.builtinFileClass

/-- `DatabaseFactory` (lines 151-175).  The google branch evaluates the unbound
name `title` and the mysql branch the unbound name `db`, so both raise NameError
before constructing anything; the text branch constructs `TextInterface` with
whatever the bare name `file` resolves to; an unrecognized tag falls off the end
of the function, returning None. -/
def DatabaseFactory (db_type : String) (kwargs : List (String × String)) :
    FactoryOutcome :=
  if GOOGLE_SPREADSHEET_TYPES.contains (pyLower db_type) then
    FactoryOutcome.raisedNameError "title"
  else if TEXT_TABLE_TYPES.contains (pyLower db_type) then
    FactoryOutcome.textAdapter (factoryFileArgument kwargs)
  else if pyLower db_type == "mysql" then
    FactoryOutcome.raisedNameError "db"
  else
    FactoryOutcome.noneReturned

/-- The names bound at module scope of database.py: the two imports (`np`,
`collections`) and the module's own definitions.  Neither `Qc` nor `datetime`
appears — they are never imported. -/
def moduleScopeNames : List String :=
  ["np", "collections", "SQL_TYPES", "TEXT_TABLE_TYPES", "GOOGLE_SPREADSHEET_TYPES",
   "GoogleSpreadsheetInterface", "TextInterface", "MySQLDatabaseInterface",
   "DatabaseError", "DatabaseFactory"]

/-- The Python 2 builtin names this module's code could fall back to. -/
def builtinNames : List String :=
  ["file", "str", "int", "tuple", "open", "isinstance", "hasattr", "type", "Exception"]

/-- Global name resolution as seen from inside the module's methods: module
scope, then builtins. -/
def resolvesGlobally (n : String) : Bool :=
  moduleScopeNames.contains n || builtinNames.contains n

/-- What a `_datify` call does. -/
inductive DatifyOutcome where
  | returnedNone
  | returnedDate (y m d : Int)
  | raised (e : PyErr)
  | unreachableContinuation
deriving DecidableEq

/-- `MySQLDatabaseInterface._datify` (lines 135-143).  Its first statement
evaluates `isinstance(date, Qc.QString)`, which begins by resolving the name
`Qc`; `Qc` is bound in no scope (it is never imported), so every call raises
NameError before the argument is even inspected.  The rest of the body — which
would next need the equally unbound name `datetime` — is unreachable, and its
continuation carries no observable behavior to model. -/
def datify (_date : PyScalar) : DatifyOutcome :=
  if resolvesGlobally "Qc" then DatifyOutcome.unreachableContinuation
  else DatifyOutcome.raised (PyErr.nameError "Qc")

/-- Running the insert row loop over rows that all succeed executes every
statement in order and reports no failing row. -/
lemma insertLoop_all_ok (fails : String → Bool) (table : String) :
    ∀ (rows : List (List PyScalar)) (c : Conn),
      (∀ r ∈ rows, fails (insertStatement table r) = false) →
      MySQL.insertLoop fails table c rows =
        ({ c with executed := c.executed ++ rows.map (insertStatement table) },
         Option.none) := by
  intro rows
  induction rows with
  | nil => intro c _; simp [MySQL.insertLoop]
  | cons row rest ih =>
    intro c h
    have h0 : fails (insertStatement table row) = false := h row (by simp)
    rw [MySQL.insertLoop, h0]
    simp only [Bool.false_eq_true, if_false]
    rw [ih _ (fun r hr => h r (by simp [hr]))]
    simp [List.append_assoc]

/-- Running the insert row loop up to the first failing row executes exactly the
statements of the preceding rows and reports the failing row. -/
lemma insertLoop_first_fail (fails : String → Bool) (table : String) :
    ∀ (pre : List (List PyScalar)) (c : Conn) (bad : List PyScalar)
      (post : List (List PyScalar)),
      (∀ r ∈ pre, fails (insertStatement table r) = false) →
      fails (insertStatement table bad) = true →
      MySQL.insertLoop fails table c (pre ++ bad :: post) =
        ({ c with executed := c.executed ++ pre.map (insertStatement table) },
         some bad) := by
  intro pre
  induction pre with
  | nil => intro c bad post _ hb; simp [MySQL.insertLoop, hb]
  | cons row rest ih =>
    intro c bad post h hb
    have h0 : fails (insertStatement table row) = false := h row (by simp)
    rw [List.cons_append, MySQL.insertLoop, h0]
    simp only [Bool.false_eq_true, if_false]
    rw [ih _ bad post (fun r hr => h r (by simp [hr])) hb]
    simp [List.append_assoc]

/-- Replacing one character distributes over list concatenation. -/
lemma pyReplaceChar_append (needle : Char) (repl : List Char) (a b : List Char) :
    pyReplaceChar needle repl (a ++ b) =
      pyReplaceChar needle repl a ++ pyReplaceChar needle repl b := by
  simp [pyReplaceChar]

/-- The insert-literal escaping distributes over string concatenation. -/
lemma escapeField_append (s t : String) :
    escapeField (s ++ t) = escapeField s ++ escapeField t := by
  have hd : (s ++ t).data = s.data ++ t.data := by
    cases s; cases t; rfl
  show (⟨pyReplaceChar '\\' ['\\', '\\'] (pyReplaceChar '"' ['"', '"'] (s ++ t).data)⟩ :
    String) = _
  rw [hd, pyReplaceChar_append, pyReplaceChar_append]
  rfl

/-- A line whose characters contain no newline is delivered by file iteration as
one chunk, ending at the newline that follows it. -/
lemma pyLinesAux_single :
    ∀ (l : List Char), '\n' ∉ l →
      ∀ acc, pyLinesAux acc (l ++ ['\n']) = [acc.reverse ++ l ++ ['\n']] := by
  intro l
  induction l with
  | nil => intro _ acc; simp [pyLinesAux]
  | cons c cs ih =>
    intro h acc
    have hc : ¬ c = '\n' := fun hh => h (hh ▸ List.mem_cons_self c cs)
    have h2 : '\n' ∉ cs := fun hh => h (List.mem_cons_of_mem c hh)
    rw [List.cons_append, pyLinesAux, if_neg hc, ih h2 (c :: acc)]
    simp

/-- dropWhile consumes a leading block that wholly satisfies the predicate. -/
lemma dropWhile_append_all (p : Char → Bool) :
    ∀ (a b : List Char), (∀ c ∈ a, p c = true) →
      List.dropWhile p (a ++ b) = List.dropWhile p b := by
  intro a
  induction a with
  | nil => intro b _; rfl
  | cons x xs ih =>
    intro b h
    have hx : p x = true := h x (by simp)
    rw [List.cons_append, List.dropWhile_cons, if_pos hx]
    exact ih b (fun c hc => h c (by simp [hc]))

/-- dropWhile stops at a head that fails the predicate. -/
lemma dropWhile_cons_false (p : Char → Bool) (a : Char) (as : List Char)
    (h : p a = false) :
    List.dropWhile p (a :: as) = a :: as := by
  simp [List.dropWhile_cons, h]

/-- The two-sided dropWhile at the heart of `pyStrip` removes exactly a leading
and a trailing block of strip characters around a kernel that contains none. -/
lemma stripCore_eq (pre mid suf : List Char)
    (hpre : ∀ c ∈ pre, isStripChar c = true)
    (hsuf : ∀ c ∈ suf, isStripChar c = true)
    (hmid : ∀ c ∈ mid, isStripChar c = false)
    (hne : mid ≠ []) :
    ((List.dropWhile isStripChar (pre ++ mid ++ suf)).reverse.dropWhile
      isStripChar).reverse = mid := by
  obtain ⟨m, ms, rfl⟩ : ∃ m ms, mid = m :: ms := by
    cases mid with
    | nil => exact absurd rfl hne
    | cons m ms => exact ⟨m, ms, rfl⟩
  rw [List.append_assoc, dropWhile_append_all _ pre _ hpre]
  rw [List.cons_append, dropWhile_cons_false _ _ _ (hmid m (by simp))]
  rw [← List.cons_append, List.reverse_append]
  rw [dropWhile_append_all _ suf.reverse _
    (fun c hc => hsuf c (List.mem_reverse.mp hc))]
  cases hrev : (m :: ms).reverse with
  | nil => exact absurd (congrArg List.length hrev) (by simp)
  | cons b bs =>
    have hb : isStripChar b = false := by
      have hmem : b ∈ (m :: ms).reverse := by rw [hrev]; simp
      exact hmid b (List.mem_reverse.mp hmem)
    rw [dropWhile_cons_false _ _ _ hb, ← hrev, List.reverse_reverse]

/-- Claim C1: the spec's concrete round-trip scenario — writing
[("a","1"),("b","2")] to out.csv is said to produce file contents "a,1\nb,2",
which read back yields the original rows.  On the code the write half fails:
the guard `type(data[0] == str)` is always truthy, so `write` passes the whole
list to `outfile.write`, which raises TypeError and leaves out.csv truncated
empty; the file never holds "a,1\nb,2".  (Reading a file that does hold
"a,1\nb,2" does return the rows, as the third conjunct shows, but the
write-then-read round trip of the claim never happens.) -/
theorem csv_roundtrip_scenario_fails :
    TextInterface.write "out.csv"
        (PyData.seq [PyEntry.tup [PyScalar.str "a", PyScalar.str "1"],
                     PyEntry.tup [PyScalar.str "b", PyScalar.str "2"]]) "," =
      ⟨some "", some PyErr.typeError⟩ ∧
    ¬ TextInterface.write "out.csv"
        (PyData.seq [PyEntry.tup [PyScalar.str "a", PyScalar.str "1"],
                     PyEntry.tup [PyScalar.str "b", PyScalar.str "2"]]) "," =
      ⟨some "a,1\nb,2", Option.none⟩ ∧
    TextInterface.read "out.csv" "a,1\nb,2" "," = [["a", "1"], ["b", "2"]] := by decide

/-- Claim C2: the claim says a `data` whose first element is not a string has
its rows joined with the separator and newlines.  On the code the joining
branch is dead: `type(data[0] == str)` is the class `bool`, which is truthy for
every input, so the verbatim branch runs unconditionally — here on a list,
raising TypeError instead of writing "1 2". -/
theorem write_branch_always_verbatim :
    writeGuard (PyEntry.tup [PyScalar.int 1, PyScalar.int 2]) = true ∧
    TextInterface.write "f.txt" (PyData.seq [PyEntry.tup [PyScalar.int 1, PyScalar.int 2]])
        " " = ⟨some "", some PyErr.typeError⟩ ∧
    ¬ TextInterface.write "f.txt" (PyData.seq [PyEntry.tup [PyScalar.int 1, PyScalar.int 2]])
        " " = ⟨some "1 2", Option.none⟩ := by decide

/-- Claim C3: the claim says `DatabaseFactory("csv", file="data.csv")` returns a
text adapter bound to "data.csv".  On the code the kwargs dict is never read:
the text branch passes the bare name `file`, which resolves to the Python 2
builtin class `file`, so the adapter is not bound to "data.csv". -/
theorem factory_csv_ignores_file_kwarg :
    DatabaseFactory "csv" [("file", "data.csv")] =
      FactoryOutcome.textAdapter FactoryValue.builtinFileClass ∧
    ¬ DatabaseFactory "csv" [("file", "data.csv")] =
      FactoryOutcome.textAdapter (FactoryValue.strVal "data.csv") := by decide

/-- Claim C4 (amended): `insert` with N rows that all succeed issues exactly the
N INSERT statements and the single commit that sits after the loop; when the
k-th row's execute raises, the call fails with `DatabaseError` naming that row
and the table, exactly the k−1 preceding statements were issued, and no commit
is performed by the call — the committed state is unchanged, not "k−1 rows
committed" as the claim states. -/
theorem insert_statement_and_commit_counts
    (fails : String → Bool) (c : Conn) (table : String)
    (rows pre post : List (List PyScalar)) (bad : List PyScalar) :
    ((∀ r ∈ rows, fails (insertStatement table r) = false) →
      MySQL.insert fails c table rows =
        ({ executed := c.executed ++ rows.map (insertStatement table),
           committed := c.executed ++ rows.map (insertStatement table),
           commits := c.commits + 1 }, Option.none))
    ∧
    ((∀ r ∈ pre, fails (insertStatement table r) = false) →
      fails (insertStatement table bad) = true →
      MySQL.insert fails c table (pre ++ bad :: post) =
        ({ c with executed := c.executed ++ pre.map (insertStatement table) },
         some (DBErr.rowError bad table))) := by
  constructor
  · intro h
    rw [MySQL.insert, insertLoop_all_ok fails table rows c h]
    rfl
  · intro h1 h2
    rw [MySQL.insert, insertLoop_first_fail fails table pre c bad post h1 h2]

/-- Witness for the amended C4 theorem: a fresh connection, table "t", and a
driver that fails exactly on the INSERT for row (2); one all-success call and
one call failing at the second row. -/
theorem insert_statement_and_commit_counts_witness :
    MySQL.insert (fun s => s == "INSERT INTO t VALUES ( 2 )") ⟨[], [], 0⟩ "t"
        [[PyScalar.int 1]] =
      (⟨["INSERT INTO t VALUES ( 1 )"], ["INSERT INTO t VALUES ( 1 )"], 1⟩,
       Option.none) ∧
    MySQL.insert (fun s => s == "INSERT INTO t VALUES ( 2 )") ⟨[], [], 0⟩ "t"
        ([[PyScalar.int 1]] ++ [PyScalar.int 2] :: []) =
      (⟨["INSERT INTO t VALUES ( 1 )"], [], 0⟩,
       some (DBErr.rowError [PyScalar.int 2] "t")) := by
  constructor
  · exact (insert_statement_and_commit_counts (fun s => s == "INSERT INTO t VALUES ( 2 )")
      ⟨[], [], 0⟩ "t" [[PyScalar.int 1]] [] [] []).1 (by decide)
  · exact (insert_statement_and_commit_counts (fun s => s == "INSERT INTO t VALUES ( 2 )")
      ⟨[], [], 0⟩ "t" [] [[PyScalar.int 1]] [] [PyScalar.int 2]).2 (by decide) (by decide)

/-- Counterexample to claim C4 as stated: two rows on a fresh connection, the
second row's execute raises (k = 2).  The claim says exactly k−1 = 1 row is
committed; the code commits nothing, because the single commit sits after the
loop and is never reached on the failing path. -/
theorem insert_failure_commits_nothing :
    (MySQL.insert (fun s => s == "INSERT INTO t VALUES ( 2 )") ⟨[], [], 0⟩ "t"
        [[PyScalar.int 1], [PyScalar.int 2]]).1.committed.length = 0 ∧
    ¬ (MySQL.insert (fun s => s == "INSERT INTO t VALUES ( 2 )") ⟨[], [], 0⟩ "t"
        [[PyScalar.int 1], [PyScalar.int 2]]).1.committed.length = 1 := by decide

/-- Claim C5 (amended): every string field — empty ones included — is emitted
as a quoted literal whose escaping doubles each embedded double quote and
doubles each backslash (the escaping is a character-wise homomorphism, pinned
down by the append, quote, backslash, and untouched-character conjuncts); every
nonzero numeric field is emitted via its default representation without
quoting; but the falsy number 0 — numeric, yet caught by `or not item` — is
emitted quoted, against the claim's "every numeric field". -/
theorem build_insert_field_formatting (s t : String) (c : Char) (n : Int) :
    (buildInsertItem (PyScalar.str s) = "\"" ++ escapeField s ++ "\"") ∧
    (escapeField (s ++ t) = escapeField s ++ escapeField t) ∧
    (escapeField "\"" = "\"\"") ∧
    (escapeField "\\" = "\\\\") ∧
    (¬ c = '"' → ¬ c = '\\' → escapeField (String.singleton c) = String.singleton c) ∧
    (¬ n = 0 → buildInsertItem (PyScalar.int n) = pyStrInt n) ∧
    (buildInsertItem (PyScalar.int 0) = "\"0\"") := by
  refine ⟨?_, escapeField_append s t, by decide, by decide, ?_, ?_, by decide⟩
  · simp [buildInsertItem, isinstanceStr, pyStrScalar]
  · intro h1 h2
    simp [escapeField, pyReplaceChar, String.singleton, h1, h2]
    rfl
  · intro h
    simp [buildInsertItem, isinstanceStr, pyNotItem, pyStrScalar, h]

/-- Witness for the amended C5 theorem at the character 'x' and the number 2. -/
theorem build_insert_field_formatting_witness :
    escapeField (String.singleton 'x') = String.singleton 'x' ∧
    buildInsertItem (PyScalar.int 2) = pyStrInt 2 := by
  have h := build_insert_field_formatting "a" "b" 'x' 2
  exact ⟨h.2.2.2.2.1 (by decide) (by decide), h.2.2.2.2.2.1 (by decide)⟩

/-- Counterexample to claim C5 as stated: the numeric field 0 is falsy, so
`isinstance(item, str) or not item` selects the quoted branch and 0 is emitted
as the quoted literal `"0"`, not via its default unquoted representation. -/
theorem build_insert_quotes_zero :
    build_insert [PyScalar.int 0] = "\"0\"" ∧
    ¬ build_insert [PyScalar.int 0] = "0" := by decide

/-- Claim C6 (amended): a `.csv` filename makes both `read` and `write` override
the supplied separator argument with "," (first and second conjuncts — read's
result is that of separator ","); but `write` never applies any field
separator, because its guard always selects the verbatim `outfile.write`
branch, so its result is independent of the separator argument altogether
(third conjunct), rather than comma-separated as the claim states. -/
theorem csv_separator_override (file contents sep sep1 sep2 : String) (data : PyData)
    (h : pyEndsWith file ".csv" = true) :
    effectiveSeperator file sep = "," ∧
    TextInterface.read file contents sep = TextInterface.read file contents "," ∧
    TextInterface.write file data sep1 = TextInterface.write file data sep2 := by
  have he : ∀ s, effectiveSeperator file s = "," := fun s => by
    simp [effectiveSeperator, h]
  refine ⟨he sep, ?_, ?_⟩
  · unfold TextInterface.read
    rw [he sep, he ","]
  · cases data with
    | scalar v => rfl
    | seq xs =>
      cases xs with
      | nil => rfl
      | cons e es => rfl

/-- Witness for the amended C6 theorem at the file "out.csv". -/
theorem csv_separator_override_witness :
    effectiveSeperator "out.csv" ";" = "," ∧
    TextInterface.read "out.csv" "a,1\nb,2" ";" =
      TextInterface.read "out.csv" "a,1\nb,2" "," ∧
    TextInterface.write "out.csv" (PyData.seq []) ";" =
      TextInterface.write "out.csv" (PyData.seq []) "\t" := by
  exact csv_separator_override "out.csv" "a,1\nb,2" ";" ";" "\t" (PyData.seq [])
    (by decide)

/-- Counterexample to claim C6 as stated: writing two rows to out.csv with an
explicit ";" separator.  The claim says write then uses "," as the field
separator, producing "a,1\nb,2"; the code joins nothing — the always-taken
verbatim branch passes the list to `outfile.write`, raising TypeError and
leaving the file empty. -/
theorem csv_write_ignores_field_separator :
    TextInterface.write "out.csv"
        (PyData.seq [PyEntry.tup [PyScalar.str "a", PyScalar.str "1"],
                     PyEntry.tup [PyScalar.str "b", PyScalar.str "2"]]) ";" =
      ⟨some "", some PyErr.typeError⟩ ∧
    ¬ TextInterface.write "out.csv"
        (PyData.seq [PyEntry.tup [PyScalar.str "a", PyScalar.str "1"],
                     PyEntry.tup [PyScalar.str "b", PyScalar.str "2"]]) ";" =
      ⟨some "a,1\nb,2", Option.none⟩ := by decide

/-- Claim C7 (amended): `line.strip("\r\n\t")` strips the characters \r, \n, \t
from BOTH ends of each line — leading as well as trailing, unlike the claim's
"characters at the start of the line are preserved" — and the remaining text is
split on the separator to form the Row: a line made of a leading block of
\r/\t characters, a kernel free of \r\n\t, and a trailing block of \r/\t
characters reads as exactly the split of the kernel. -/
theorem read_strips_both_ends (pre mid suf : List Char) (file sep : String)
    (hpre : ∀ c ∈ pre, c = '\r' ∨ c = '\t')
    (hsuf : ∀ c ∈ suf, c = '\r' ∨ c = '\t')
    (hmid : ∀ c ∈ mid, isStripChar c = false)
    (hne : mid ≠ []) :
    TextInterface.read file ⟨pre ++ mid ++ suf ++ ['\n']⟩ sep =
      [pySplit ⟨mid⟩ (effectiveSeperator file sep)] := by
  have hpre' : ∀ c ∈ pre, isStripChar c = true := by
    intro c hc
    rcases hpre c hc with h | h <;> subst h <;> decide
  have hsuf' : ∀ c ∈ suf ++ ['\n'], isStripChar c = true := by
    intro c hc
    rcases List.mem_append.mp hc with h | h
    · rcases hsuf c h with h2 | h2 <;> subst h2 <;> decide
    · simp at h; subst h; decide
  have hnl : '\n' ∉ pre ++ mid ++ suf := by
    intro hmem
    rcases List.mem_append.mp hmem with h | h
    · rcases List.mem_append.mp h with h3 | h3
      · rcases hpre _ h3 with h2 | h2 <;> exact absurd h2 (by decide)
      · have hx := hmid _ h3
        simp [isStripChar] at hx
    · rcases hsuf _ h with h2 | h2 <;> exact absurd h2 (by decide)
  have hone : pyLines ⟨pre ++ mid ++ suf ++ ['\n']⟩ =
      [⟨pre ++ mid ++ suf ++ ['\n']⟩] := by
    unfold pyLines
    show (pyLinesAux [] ((pre ++ mid ++ suf) ++ ['\n'])).map _ = _
    rw [pyLinesAux_single _ hnl []]
    simp
  have hstrip : pyStrip ⟨pre ++ mid ++ suf ++ ['\n']⟩ = ⟨mid⟩ := by
    show (⟨((List.dropWhile isStripChar (pre ++ mid ++ suf ++ ['\n'])).reverse.dropWhile
      isStripChar).reverse⟩ : String) = ⟨mid⟩
    rw [show pre ++ mid ++ suf ++ ['\n'] = pre ++ mid ++ (suf ++ ['\n']) from
      List.append_assoc _ _ _]
    exact congrArg (fun l => (⟨l⟩ : String))
      (stripCore_eq pre mid (suf ++ ['\n']) hpre' hsuf' hmid hne)
  unfold TextInterface.read
  rw [hone]
  simp only [List.map_cons, List.map_nil]
  rw [hstrip]

/-- Witness for the amended C7 theorem: the line tab,"a b",CR reads as the
split of "a b" — the leading tab is stripped along with the trailing \r\n. -/
theorem read_strips_both_ends_witness :
    TextInterface.read "f.txt" ⟨['\t'] ++ ['a', ' ', 'b'] ++ ['\r'] ++ ['\n']⟩ " " =
      [pySplit ⟨['a', ' ', 'b']⟩ (effectiveSeperator "f.txt" " ")] := by
  exact read_strips_both_ends ['\t'] ['a', ' ', 'b'] ['\r'] "f.txt" " "
    (by decide) (by decide) (by decide) (by decide)

/-- Counterexample to claim C7 as stated: the line "\ta b\n" — the claim says
the leading tab is preserved, giving the Row ("\ta","b"); the code's
`strip("\r\n\t")` removes it, giving ("a","b"). -/
theorem read_strips_leading_whitespace_too :
    TextInterface.read "f.txt" "\ta b\n" " " = [["a", "b"]] ∧
    ¬ TextInterface.read "f.txt" "\ta b\n" " " = [["\ta", "b"]] := by decide

/-- Claim C8 (amended): `write`'s precondition is
`assert hasattr(data, "__iter__")`.  Every list/tuple argument passes it and
writing proceeds past the check (the call gets as far as opening the file, and
any later failure is not the assertion); every other argument — non-iterables,
but in Python 2 also plain strings, which are sequences yet lack `__iter__` —
fails it with AssertionError, the failure the spec names TypeMismatch. -/
theorem write_iter_guard (file sep : String) (entries : List PyEntry) (v : PyScalar) :
    ((TextInterface.write file (PyData.seq entries) sep).error ≠
      some PyErr.assertionError) ∧
    ((TextInterface.write file (PyData.seq entries) sep).fileContents ≠ Option.none) ∧
    (TextInterface.write file (PyData.scalar v) sep =
      ⟨Option.none, some PyErr.assertionError⟩) := by
  refine ⟨?_, ?_, rfl⟩ <;>
    cases entries with
    | nil => simp [TextInterface.write, hasIter, pyDataIndex0]
    | cons e es =>
      simp [TextInterface.write, hasIter, pyDataIndex0, writeGuard, truthyOfTypeBool,
        pyEqClassStr, fileWriteArg]

/-- Counterexample to claim C8 as stated: the string "a,1" is a Python
sequence, yet the precondition check does not pass for it — in Python 2 a str
has no `__iter__`, so the assert fails (before the file is even opened) rather
than letting writing proceed. -/
theorem write_string_fails_assert :
    isPySequence (PyData.scalar (PyScalar.str "a,1")) = true ∧
    TextInterface.write "f.txt" (PyData.scalar (PyScalar.str "a,1")) " " =
      ⟨Option.none, some PyErr.assertionError⟩ := by decide

/-- Claim C9: the claim says `_datify` returns the parsed calendar date for
date-like strings and "no value" otherwise.  On the code every call raises
NameError: the first statement evaluates `Qc.QString`, and `Qc` (like
`datetime`, needed two lines later) is never imported. -/
theorem datify_raises_nameerror :
    datify (PyScalar.str "2012-01-02") = DatifyOutcome.raised (PyErr.nameError "Qc") ∧
    ¬ datify (PyScalar.str "2012-01-02") = DatifyOutcome.returnedDate 2012 1 2 ∧
    datify (PyScalar.int 5) = DatifyOutcome.raised (PyErr.nameError "Qc") ∧
    ¬ datify (PyScalar.int 5) = DatifyOutcome.returnedNone := by decide

/-- Claim C10: `MySQLDatabaseInterface.read` executes the statement and fetches
the results without ever committing — on success and on failure alike its
commit counter and committed set are untouched, and the only state change is
the executed statement itself; by contrast `execute` commits exactly once on
success (and `insert`'s commit behavior is the C4 theorem). -/
theorem read_never_commits (fails : String → Bool)
    (results : String → List (List PyScalar)) (c : Conn) (statement : String) :
    (MySQL.read fails results c statement).1.commits = c.commits ∧
    (MySQL.read fails results c statement).1.committed = c.committed ∧
    (MySQL.read fails results c statement).1.executed =
      (if fails statement then c.executed else c.executed ++ [statement]) ∧
    (MySQL.execute fails c statement).1.commits =
      (if fails statement then c.commits else c.commits + 1) := by
  unfold MySQL.read MySQL.execute Conn.commitNow
  cases h : fails statement <;> simp [h]
